/-
  Verification of the tweettemp451 streaming pipeline against its
  natural-language specification.

  The development shallowly embeds the Python sources
  (src/tweettemp451/{pipeline,twitter,weather}.py) in Lean:
  * JSON-decoded Python values become the inductive `PyVal`
    (after `json.loads`: None, bool, int, float, Decimal, str, list, dict);
  * Python `float` and `decimal.Decimal` are both modelled as exact
    rationals `ℚ` (all concrete values appearing in the claims are exactly
    representable, and the decimal sums the code performs are exact);
  * raising Python code is modelled in `Except PyErr`;
  * the third-party behaviours the code leans on (tenacity's retry loop,
    dateutil's ISO parser, httpx's `raise_for_status`) are modelled from
    their documented semantics, since they are library collaborators,
    not repository code.
-/
import Mathlib

namespace TweetTemp

/-- A Python exception kind relevant to the embedded code paths. -/
inductive PyErr where
  | typeError
  | valueError
  | attributeError
  | nameError
  | runtimeError
  | httpStatusError (status : ℕ)
  | transportError
  deriving DecidableEq, Repr

/-- A Python value as produced by `json.loads`.  `float` holds values parsed
as binary floats (tweet bodies, parsed with plain `json.loads`), `dec` holds
values parsed as `decimal.Decimal` (weather bodies parsed with
`parse_float=decimal.Decimal`).  Both carry exact rationals. -/
inductive PyVal where
  | none
  | bool (b : Bool)
  | int (z : ℤ)
  | float (q : ℚ)
  | dec (q : ℚ)
  | str (s : String)
  | list (xs : List PyVal)
  | dict (m : List (String × PyVal))

/-- Python truthiness of a decoded JSON value. -/
def pyTruthy : PyVal → Bool
  | .none => false
  | .bool b => b
  | .int z => z ≠ 0
  | .float q => q ≠ 0
  | .dec q => q ≠ 0
  | .str s => s ≠ ""
  | .list xs => ¬ xs.isEmpty
  | .dict m => ¬ m.isEmpty

/-- Key lookup in a decoded JSON object (objects in scope carry no
duplicate keys). -/
def pyLookup (m : List (String × PyVal)) (k : String) : Option PyVal :=
  (m.find? (fun p => p.1 == k)).map (fun p => p.2)

/-- `x.get(k, d)`: dictionary lookup with a default; raises
`AttributeError` when `x` is not a dict. -/
def pyGetD (x : PyVal) (k : String) (d : PyVal) : Except PyErr PyVal :=
  match x with
  | .dict m => .ok ((pyLookup m k).getD d)
  | _ => .error .attributeError

/-- `x.get(k)`: dictionary lookup defaulting to `None`. -/
def pyGet (x : PyVal) (k : String) : Except PyErr PyVal :=
  pyGetD x k .none

/-- A minimal decimal-literal reader: optional sign, digits, optional
fractional digits.  Returns the rational value, or `none` when the string
is not of this shape.  Used to model `float(str)` and `decimal.Decimal(str)`
on the plain numeric literals the claims exercise (exotic accepted forms
such as exponents, `NaN` or `Infinity` are outside the modelled subset). -/
def readDecimalString (s : String) : Option ℚ :=
  let cs := s.toList
  let (sign, cs) : ℚ × List Char :=
    match cs with
    | '-' :: rest => (-1, rest)
    | '+' :: rest => (1, rest)
    | rest => (1, rest)
  let intPart := cs.takeWhile Char.isDigit
  let rest := cs.dropWhile Char.isDigit
  let digitsVal : List Char → ℕ :=
    fun ds => ds.foldl (fun acc c => 10 * acc + (c.toNat - '0'.toNat)) 0
  match rest with
  | [] =>
      if intPart.isEmpty then Option.none
      else Option.some (sign * (digitsVal intPart : ℚ))
  | '.' :: fracPart =>
      if fracPart.all Char.isDigit ∧ ¬ (intPart.isEmpty ∧ fracPart.isEmpty) then
        Option.some (sign * ((digitsVal intPart : ℚ) +
          (digitsVal fracPart : ℚ) / (10 : ℚ) ^ fracPart.length))
      else Option.none
  | _ => Option.none

/-- `float(x)` on a decoded value: succeeds on numbers and numeric
strings, raises `ValueError`/`TypeError` otherwise (the caller in
`twitter.py` catches both, so the model does not distinguish them and
reports `typeError`). -/
def pyFloat : PyVal → Except PyErr ℚ
  | .int z => .ok (z : ℚ)
  | .float q => .ok q
  | .dec q => .ok q
  | .bool b => .ok (if b then 1 else 0)
  | .str s =>
      match readDecimalString s with
      | Option.some q => .ok q
      | Option.none => .error .typeError
  | _ => .error .typeError

/-- Python `+` on decoded values, as exercised by the bounding-box
arithmetic: numeric addition (bool counting as int), string and list
concatenation; `Decimal + float` and all remaining combinations raise
`TypeError`. -/
def pyAdd : PyVal → PyVal → Except PyErr PyVal
  | .int a, .int b => .ok (.int (a + b))
  | .int a, .float b => .ok (.float ((a : ℚ) + b))
  | .float a, .int b => .ok (.float (a + (b : ℚ)))
  | .float a, .float b => .ok (.float (a + b))
  | .bool a, .int b => .ok (.int ((if a then 1 else 0) + b))
  | .int a, .bool b => .ok (.int (a + (if b then 1 else 0)))
  | .bool a, .bool b => .ok (.int ((if a then 1 else 0) + (if b then 1 else 0)))
  | .bool a, .float b => .ok (.float ((if a then 1 else 0) + b))
  | .float a, .bool b => .ok (.float (a + (if b then 1 else 0)))
  | .dec a, .dec b => .ok (.dec (a + b))
  | .dec a, .int b => .ok (.dec (a + (b : ℚ)))
  | .int a, .dec b => .ok (.dec ((a : ℚ) + b))
  | .str a, .str b => .ok (.str (a ++ b))
  | .list a, .list b => .ok (.list (a ++ b))
  | _, _ => .error .typeError

/-- `x / 2.0` on a decoded value: true division by the float literal two.
Numbers divide; `Decimal / float` and non-numbers raise `TypeError`. -/
def pyDivFloat2 : PyVal → Except PyErr ℚ
  | .int z => .ok ((z : ℚ) / 2)
  | .float q => .ok (q / 2)
  | .bool b => .ok ((if b then 1 else 0) / 2)
  | _ => .error .typeError

/-- `data.Coordinates`: an immutable longitude/latitude pair. -/
structure Coordinates where
  longitude : ℚ
  latitude : ℚ
  deriving DecidableEq, Repr

/-- The explicit-point attempt (twitter.py lines 54-63): a list of two or
three entries whose first two convert with `float` yields a point; a
conversion failure (`ValueError`/`TypeError`) is caught and logged, so
any other outcome falls through to the bounding box. -/
def pointFromCoordinates (coordinates : PyVal) : Option Coordinates :=
  match coordinates with
  | .list cs =>
      if cs.length = 2 ∨ cs.length = 3 then
        match pyFloat (cs.getD 0 .none), pyFloat (cs.getD 1 .none) with
        | .ok lon, .ok lat => Option.some ⟨lon, lat⟩
        | _, _ => Option.none
      else Option.none
  | _ => Option.none

/-- The bounding-box attempt (twitter.py lines 65-73): a list of four or
six entries yields the midpoint of its first four; a `TypeError` in the
midpoint arithmetic reaches the handler whose logging call references the
unbound name `ex` (the target of the earlier `except ... as ex`, which
Python 3 deletes on leaving that handler), raising `NameError`. -/
def bboxResult (bbox : PyVal) : Except PyErr (Option Coordinates) :=
  match bbox with
  | .list bs =>
      if bs.length = 4 ∨ bs.length = 6 then
        match (pyAdd (bs.getD 0 .none) (bs.getD 2 .none)).bind pyDivFloat2,
              (pyAdd (bs.getD 1 .none) (bs.getD 3 .none)).bind pyDivFloat2 with
        | .ok lon, .ok lat => .ok (Option.some ⟨lon, lat⟩)
        | _, _ => .error .nameError
      else .ok Option.none
  | _ => .ok Option.none

/-- `TweetTransformer.extract_coordinates_from_geo` (twitter.py lines
50-77): falsy geo yields nothing; `geo.get('coordinates')` (unwrapping a
GeoJSON dict one level) feeds the explicit-point attempt; on fall-through,
`geo.get('bbox')` feeds the bounding-box attempt. -/
def extract_coordinates_from_geo (geo : PyVal) : Except PyErr (Option Coordinates) := do
  if ¬ pyTruthy geo then
    return Option.none
  let coordinates0 ← pyGet geo "coordinates"
  let coordinates :=
    match coordinates0 with
    | .dict m => (pyLookup m "coordinates").getD .none
    | c => c
  match pointFromCoordinates coordinates with
  | Option.some c => return (Option.some c)
  | Option.none =>
    let bbox ← pyGet geo "bbox"
    bboxResult bbox

/-- First truthy result of mapping `extract_coordinates_from_geo` over the
secondary geo objects — the lazy `next((x for x in map(...) if x), None)`
in `get_coordinates`. -/
def firstResolvable : List PyVal → Except PyErr (Option Coordinates)
  | [] => .ok Option.none
  | g :: gs => do
      match ← extract_coordinates_from_geo g with
      | Option.some c => return (Option.some c)
      | Option.none => firstResolvable gs

/-- `tweet.get('includes', {}).get('places', [])` iterated: collect each
entry's `geo` field.  A non-dict entry raises `AttributeError`
(`x.get('geo')` on a non-dict); the list comprehension in the source is
strict, so every entry is visited. -/
def placeGeos (places : PyVal) : Except PyErr (List PyVal) :=
  match places with
  | .list ps => do
      let geos ← ps.mapM (fun x => pyGet x "geo")
      return geos.filter pyTruthy
  | .str s => if s = "" then .ok [] else .error .attributeError
  | .dict m => if m.isEmpty then .ok [] else .error .attributeError
  | _ => .error .typeError

/-- `TweetTransformer.get_coordinates`: primary geo first, then the first
resolvable entry of `includes.places` (twitter.py lines 79-87). -/
def get_coordinates (tweet : PyVal) : Except PyErr (Option Coordinates) := do
  let data ← pyGetD tweet "data" (.dict [])
  let geo ← pyGetD data "geo" (.dict [])
  let coordinates ← extract_coordinates_from_geo geo
  match coordinates with
  | Option.some c => return (Option.some c)
  | Option.none => do
      let includes ← pyGetD tweet "includes" (.dict [])
      let places ← pyGetD includes "places" (.list [])
      let geos ← placeGeos places
      firstResolvable geos

/-- A Python `datetime.datetime` value.  `tzOffsetMinutes = none` models a
naive datetime (no `tzinfo`); `some o` models a fixed UTC offset of `o`
minutes. -/
structure PyDateTime where
  year : ℕ
  month : ℕ
  day : ℕ
  hour : ℕ
  minute : ℕ
  second : ℕ
  microsecond : ℕ
  tzOffsetMinutes : Option ℤ
  deriving DecidableEq, Repr

def parseDigit (c : Char) : Option ℕ :=
  if c.isDigit then Option.some (c.toNat - '0'.toNat) else Option.none

def parse2Digits : List Char → Option (ℕ × List Char)
  | a :: b :: rest => do
      let x ← parseDigit a
      let y ← parseDigit b
      return (10 * x + y, rest)
  | _ => Option.none

def parse4Digits (cs : List Char) : Option (ℕ × List Char) := do
  let (hi, cs) ← parse2Digits cs
  let (lo, cs) ← parse2Digits cs
  return (100 * hi + lo, cs)

def expectChar (c : Char) : List Char → Option (List Char)
  | x :: rest => if x = c then Option.some rest else Option.none
  | [] => Option.none

def isLeapYear (y : ℕ) : Bool := (y % 4 = 0 ∧ y % 100 ≠ 0) ∨ y % 400 = 0

def daysInMonth (y m : ℕ) : ℕ :=
  if m = 2 then (if isLeapYear y then 29 else 28)
  else if m = 4 ∨ m = 6 ∨ m = 9 ∨ m = 11 then 30
  else 31

/-- Fractional seconds: one to six digits, scaled to microseconds. -/
def parseFraction (cs : List Char) : Option (ℕ × List Char) :=
  let ds := cs.takeWhile Char.isDigit
  let rest := cs.dropWhile Char.isDigit
  if ds.isEmpty ∨ ds.length > 6 then Option.none
  else
    let v := ds.foldl (fun acc c => 10 * acc + (c.toNat - '0'.toNat)) 0
    Option.some (v * 10 ^ (6 - ds.length), rest)

/-- Trailing timezone designator: empty (naive), `Z`/`z`, or `±HH[[:]MM]`. -/
def parseTzSuffix : List Char → Option (Option ℤ)
  | [] => Option.some Option.none
  | ['Z'] => Option.some (Option.some 0)
  | ['z'] => Option.some (Option.some 0)
  | sign :: cs =>
      if sign = '+' ∨ sign = '-' then do
        let (hh, cs) ← parse2Digits cs
        let (mm, cs) ←
          match cs with
          | [] => Option.some (0, ([] : List Char))
          | ':' :: cs2 => parse2Digits cs2
          | _ => parse2Digits cs
        if ¬ cs.isEmpty ∨ hh > 23 ∨ mm > 59 then Option.none
        else
          let total : ℤ := 60 * hh + mm
          Option.some (Option.some (if sign = '-' then -total else total))
      else Option.none

/-- The optional `[:MM[:SS[.ffffff]]]` tail of a time component. -/
def parseTimeTail : List Char → Option (ℕ × ℕ × ℕ × List Char)
  | ':' :: cs2 => do
      let (mi, cs3) ← parse2Digits cs2
      match cs3 with
      | ':' :: cs4 => do
          let (se, cs5) ← parse2Digits cs4
          match cs5 with
          | '.' :: cs6 => do
              let (micro, cs7) ← parseFraction cs6
              Option.some (mi, se, micro, cs7)
          | ',' :: cs6 => do
              let (micro, cs7) ← parseFraction cs6
              Option.some (mi, se, micro, cs7)
          | _ => Option.some (mi, se, 0, cs5)
      | _ => Option.some (mi, 0, 0, cs3)
  | cs => Option.some (0, 0, 0, cs)

/-- Modelled from the documented behaviour of `dateutil.parser.isoparse`
(an external library; its source is not part of this repository) on common
ISO-8601 forms: `YYYY-MM-DD`, optionally followed by a single separator
character and a time `HH[:MM[:SS[.ffffff]]]`, optionally followed by a
timezone designator (`Z` or `±HH:MM`/`±HHMM`/`±HH`).  A string without a
timezone designator parses successfully to a NAIVE datetime — isoparse
does not require timezone information.  Week dates, basic (separator-free)
dates and other exotic accepted forms are outside the modelled subset. -/
def isoparseM (s : String) : Option PyDateTime := do
  let cs := s.toList
  let (y, cs) ← parse4Digits cs
  let cs ← expectChar '-' cs
  let (mo, cs) ← parse2Digits cs
  let cs ← expectChar '-' cs
  let (d, cs) ← parse2Digits cs
  if ¬ (1 ≤ mo ∧ mo ≤ 12 ∧ 1 ≤ d ∧ d ≤ daysInMonth y mo) then Option.none
  else
    match cs with
    | [] => Option.some ⟨y, mo, d, 0, 0, 0, 0, Option.none⟩
    | _sep :: cs => do
        let (h, cs) ← parse2Digits cs
        let (mi, se, micro, cs) ← parseTimeTail cs
        if h > 23 ∨ mi > 59 ∨ se > 59 then Option.none
        else do
          let tz ← parseTzSuffix cs
          return ⟨y, mo, d, h, mi, se, micro, tz⟩

/-- The `tweet.get('data', \x7b\x7d).get('created_at')` extraction at the
start of `TweetTransformer.get_timestamp`. -/
def createdAtField (tweet : PyVal) : Except PyErr PyVal := do
  let data ← pyGetD tweet "data" (.dict [])
  pyGet data "created_at"

/-- `TweetTransformer.get_timestamp` (twitter.py lines 102-114): extract
`data.created_at`; a non-string value yields `None`; a string is parsed
with `dateutil.parser.isoparse`.  On a string isoparse rejects, the
library raises plain `ValueError`, but the source's `except` clause lists
only `ParserError`, `UnknownTimezoneWarning` and `OverflowError` — and a
plain `ValueError` is not an instance of its own subclass `ParserError`,
nor of the others — so the exception is NOT caught and propagates out of
the function (in the modelled isoparse subset every rejection is such a
plain `ValueError`; the caught types do not arise). -/
def get_timestamp (tweet : PyVal) : Except PyErr (Option PyDateTime) := do
  let created ← createdAtField tweet
  match created with
  | .str s =>
      match isoparseM s with
      | Option.some ts => return (Option.some ts)
      | Option.none => throw .valueError
  | _ => return Option.none

/-- `weather.ErrorCodes.NO_MATCHING_LOCATION`. -/
def NO_MATCHING_LOCATION : ℤ := 1006

/-- Python `==` between a decoded value and an integer constant (an
`IntEnum` member compares equal to its integer value; a float or Decimal
compares equal to an equal-valued int). -/
def pyEqInt : PyVal → ℤ → Bool
  | .int z, n => z = n
  | .float q, n => q = (n : ℚ)
  | .dec q, n => q = (n : ℚ)
  | .bool b, n => (if b then (1 : ℤ) else 0) = n
  | _, _ => false

/-- An HTTP response from the weather API, as seen by the code after the
`await self._http.get(...)` returned.  `rawJson` is the result of plain
`response.json()` (floats as binary floats), `decJson` the result of
`response.json(parse_float=decimal.Decimal)` (floats as Decimals); both
are parses of the same body text, `none` meaning the body is not valid
JSON (`JSONDecodeError`). -/
structure HttpResponse where
  status : ℕ
  rawJson : Option PyVal
  decJson : Option PyVal

/-- `WeatherClient.should_ignore_error` (weather.py lines 72-85).
`httpx.Response` defines no truthiness override, so `if response and ...`
reduces to the status test.  Only `JSONDecodeError` is caught; a non-dict
JSON body or a truthy non-dict `error` member raises `AttributeError`. -/
def should_ignore_error (r : HttpResponse) : Except PyErr Bool :=
  if r.status = 400 then
    match r.rawJson with
    | Option.none => .ok false
    | Option.some j => do
        let error ← pyGetD j "error" (.dict [])
        let errorCode ← if pyTruthy error then pyGet error "code" else pure PyVal.none
        return (pyEqInt errorCode NO_MATCHING_LOCATION)
  else .ok false

/-- httpx `codes.is_success` / `raise_for_status`: a 2xx status. -/
def isSuccessStatus (status : ℕ) : Bool := 200 ≤ status ∧ status ≤ 299

/-- The body of `WeatherClient.get_current_temperature_for_coordinates`
(weather.py lines 36-70) after the HTTP GET produced response `r`:
suppress a "no matching location" error as `None`, raise for any other
non-success status (modelling httpx `raise_for_status`), then parse the
temperature.  `parse_float=decimal.Decimal` leaves JSON *integers* as
Python ints, which fail the `isinstance(..., decimal.Decimal)` test and
fall into the final "didn't understand" branch returning `None`. -/
def get_current_temperature_for_coordinates (r : HttpResponse) :
    Except PyErr (Option ℚ) := do
  let ignore ← should_ignore_error r
  if ignore then
    return Option.none
  else if ¬ isSuccessStatus r.status then
    throw (.httpStatusError r.status)
  else
    match r.decJson with
    | Option.none => return Option.none
    | Option.some weather =>
      match weather with
      | .dict w => do
          let current ← pyGetD (.dict w) "current" (.dict [])
          let temperature ← pyGet current "temp_f"
          match temperature with
          | .dec q => return (Option.some q)
          | .str s =>
              match readDecimalString s with
              | Option.some q => return (Option.some q)
              | Option.none => return Option.none
          | _ => return Option.none
      | _ => return Option.none

/-- The parameters of a `tenacity.retry` decoration:
`wait_exponential(min=waitMin, max=waitMax)` and
`stop_after_attempt(maxAttempts)`. -/
structure RetryPolicy where
  waitMin : ℚ
  waitMax : ℚ
  maxAttempts : ℕ
  deriving DecidableEq, Repr

/-- `tenacity.wait_exponential(multiplier=1, exp_base=2, min=mn, max=mx)`
evaluated after attempt number `attemptNumber` (1-based):
`max(max(0, min), min(2^(n-1), max))`.  Modelled from the library's
documented semantics (tenacity is an external collaborator, not
repository code). -/
def wait_exponential (mn mx : ℚ) (attemptNumber : ℕ) : ℚ :=
  max (max 0 mn) (min ((2 : ℚ) ^ (attemptNumber - 1)) mx)

/-- The parameters the decoration on `TwitterClient.stream`
(twitter.py lines 23-27) REQUESTS.  The request is never honoured: see
`stream_decorated_run`. -/
def streamRetryPolicy : RetryPolicy := ⟨1, 10, 5⟩

/-- The parameters the decoration on
`WeatherClient.get_current_temperature_for_coordinates`
(weather.py lines 31-35) requests.  Under trio the backoff never
completes: see `weather_decorated_run`. -/
def weatherRetryPolicy : RetryPolicy := ⟨1, 10, 5⟩

/-- The effective behaviour of the decorated `TwitterClient.stream`,
modelled from tenacity's dispatch: `retry()` selects the asynchronous
controller only for coroutine functions (`inspect.iscoroutinefunction`),
and `stream` is an async GENERATOR function (twitter.py lines 28-38,
`async def` with `yield`), for which that test is false.  The synchronous
`Retrying` therefore wraps the call, whose single "attempt" merely
constructs the generator object — the body does not run and cannot raise
a transport error — so attempt 1 always "succeeds" and the retry loop
ends.  The stream's transport failures occur later, while
`observe_twitter_sample_stream` iterates the generator, entirely outside
the retry machinery: the first one propagates immediately.  Returns
(waits slept by the retry machinery, attempts made by it, the outcome of
iterating the stream). -/
def stream_decorated_run {α : Type} (iteration : Except PyErr α) :
    List ℚ × ℕ × Except PyErr α :=
  ([], 1, iteration)

/-- The effective behaviour of the decorated weather lookup under the
program's trio event loop, modelled from tenacity's `AsyncRetrying`: the
lookup is a genuine coroutine function, so the asynchronous controller
does govern it, but that controller's default sleep is `asyncio.sleep`,
which raises `RuntimeError` ("no running event loop") when awaited under
`trio.run` (main.py).  `outcome 1` is the first attempt's result: a
success returns its value; a retryable transport failure makes the
controller consult `stop_after_attempt` (not yet reached) and then await
the first backoff sleep, where `asyncio.sleep` raises — fatal after
exactly one attempt, before any wait completes.  Returns (attempts made,
final outcome). -/
def weather_decorated_run {α : Type} (outcome : ℕ → Option α) :
    ℕ × Except PyErr α :=
  match outcome 1 with
  | Option.some a => (1, .ok a)
  | Option.none => (1, .error .runtimeError)

/-- A send performed by the fan-out loop of `pipeline.get_temperature`:
either to the raw-file channel or to the averaging channel. -/
inductive SendEvent (τ : Type) where
  | toFile (d : τ × ℚ)
  | toAvg (d : τ × ℚ)
  deriving DecidableEq

/-- `pipeline.get_temperature` (pipeline.py lines 64-80): for each
`(timestamp, coordinates)` record, look the temperature up; a `None`
result is a soft skip; a temperature is sent first to the file channel,
then to the averaging channel; an exception from the lookup ends the loop
and propagates.  Returns the ordered trace of channel sends together with
the propagated error, if any. -/
def get_temperature {τ ε : Type} (lookup : Coordinates → Except ε (Option ℚ)) :
    List (τ × Coordinates) → List (SendEvent τ) × Option ε
  | [] => ([], Option.none)
  | (t, c) :: rest =>
      match lookup c with
      | .error e => ([], Option.some e)
      | .ok Option.none => get_temperature lookup rest
      | .ok (Option.some temp) =>
          (.toFile (t, temp) :: .toAvg (t, temp) ::
            (get_temperature lookup rest).1,
           (get_temperature lookup rest).2)

/-- The subsequence of records delivered to the raw-file channel. -/
def fileSends {τ : Type} (es : List (SendEvent τ)) : List (τ × ℚ) :=
  es.filterMap (fun e => match e with
    | .toFile d => Option.some d
    | .toAvg _ => Option.none)

/-- The subsequence of records delivered to the averaging channel. -/
def avgSends {τ : Type} (es : List (SendEvent τ)) : List (τ × ℚ) :=
  es.filterMap (fun e => match e with
    | .toFile _ => Option.none
    | .toAvg d => Option.some d)

/-- The state of `pipeline.compute_sliding_average`'s loop: the circular
`buffer`, the number `count` of inputs absorbed so far (a `Decimal` in the
source, always a natural number), the write cursor `current` and the
running sum `total`. -/
structure AvgState where
  buffer : List ℚ
  count : ℕ
  current : ℕ
  total : ℚ
  deriving DecidableEq, Repr

/-- The initial window state: `buffer = [Decimal(0)] * window_size`. -/
def avgInit (W : ℕ) : AvgState := ⟨List.replicate W 0, 0, 0, 0⟩

/-- One iteration of `pipeline.compute_sliding_average`'s loop
(pipeline.py lines 88-102) on input `v`: evict the cursor slot from the
sum when the window is full, overwrite it, advance the cursor circularly,
grow `count` until full, and emit `total / count` (exact division in the
`ℚ` model of `Decimal`). -/
def avgStep (W : ℕ) (s : AvgState) (v : ℚ) : AvgState × ℚ :=
  let total0 := if s.count = W then s.total - s.buffer.getD s.current 0 else s.total
  let buffer := s.buffer.set s.current v
  let total := total0 + v
  let current := (s.current + 1) % W
  let count := if s.count ≠ W then s.count + 1 else s.count
  (⟨buffer, count, current, total⟩, total / (count : ℚ))

/-- Run the averaging loop over a list of inputs, returning the final
state and the emitted averages in order. -/
def avgRun (W : ℕ) (s : AvgState) : List ℚ → AvgState × List ℚ
  | [] => (s, [])
  | v :: vs =>
      let p := avgStep W s v
      let rest := avgRun W p.1 vs
      (rest.1, p.2 :: rest.2)

/-- `pipeline.compute_sliding_average` as a stream transformer: the
averages emitted for the given input temperatures. -/
def compute_sliding_average (W : ℕ) (xs : List ℚ) : List ℚ :=
  (avgRun W (avgInit W) xs).2

/-- The exact mean of the most recent `min(length, W)` values of `l`. -/
def windowMean (W : ℕ) (l : List ℚ) : ℚ :=
  (l.drop (l.length - min l.length W)).sum / ((min l.length W : ℕ) : ℚ)

def padZeros (w : ℕ) (s : String) : String :=
  String.mk (List.replicate (w - s.length) '0') ++ s

def pyStr2 (n : ℕ) : String := padZeros 2 (toString n)

/-- `str(datetime.datetime)`: `YYYY-MM-DD HH:MM:SS[.ffffff][±HH:MM]` —
`isoformat` with a space separator, microseconds shown only when
nonzero, the UTC offset shown only for aware values. -/
def pyStrDateTime (dt : PyDateTime) : String :=
  padZeros 4 (toString dt.year) ++ "-" ++ pyStr2 dt.month ++ "-" ++ pyStr2 dt.day ++
  " " ++ pyStr2 dt.hour ++ ":" ++ pyStr2 dt.minute ++ ":" ++ pyStr2 dt.second ++
  (if dt.microsecond = 0 then "" else "." ++ padZeros 6 (toString dt.microsecond)) ++
  (match dt.tzOffsetMinutes with
   | Option.none => ""
   | Option.some off =>
       (if off < 0 then "-" else "+") ++
       pyStr2 (off.natAbs / 60) ++ ":" ++ pyStr2 (off.natAbs % 60))

/-- The number of fractional digits needed to write `q` as a plain
decimal, searched up to 40 places. -/
def decExponent (q : ℚ) : Option ℕ :=
  (List.range 40).find? (fun k => (q * (10 : ℚ) ^ k).den = 1)

/-- `str(decimal.Decimal)` on the `ℚ` model: the plain decimal rendering
of a decimal-representable rational (the `ℚ` model does not retain a
Decimal's trailing-zero count, so `Decimal('72.0')` renders as `72`); a
rational needing more than 40 fractional digits falls back to a fraction
rendering, a shape no pipeline value takes. -/
def strDecimal (q : ℚ) : String :=
  let sign := if q < 0 then "-" else ""
  let a : ℚ := |q|
  match decExponent a with
  | Option.some 0 => sign ++ toString a.num
  | Option.some k =>
      let n := (a * (10 : ℚ) ^ k).num.toNat
      sign ++ toString (n / 10 ^ k) ++ "." ++ padZeros k (toString (n % 10 ^ k))
  | Option.none => sign ++ toString a.num ++ "/" ++ toString a.den

/-- One output line of the sink: `f'\x7btimestamp\x7d,\x7bdatum\x7d\n'`. -/
def sinkLine (r : PyDateTime × ℚ) : String :=
  pyStrDateTime r.1 ++ "," ++ strDecimal r.2 ++ "\n"

/-- `pipeline.write_data` (pipeline.py lines 105-111): the file is opened
with mode `'wt'`, so its content starts empty (truncate); each received
record appends one formatted line.  The result is the file's final
content once the input channel is exhausted. -/
def write_data (records : List (PyDateTime × ℚ)) : String :=
  records.foldl (fun acc r => acc ++ sinkLine r) ""

/-- `Except.isOk` as a plain boolean discriminator. -/
def exceptIsOk {ε α : Type} : Except ε α → Bool
  | .ok _ => true
  | .error _ => false

/-- A decoded JSON number: a Python int or float. -/
def pyIsNum : PyVal → Bool
  | .int _ => true
  | .float _ => true
  | _ => false

/-- The numeric value of such a number. -/
def pyNumVal : PyVal → ℚ
  | .int z => (z : ℚ)
  | .float q => q
  | _ => 0

/-- A tweet whose geo object carries the GeoJSON point [12.5, 45.0]. -/
def tweetPoint : PyVal :=
  .dict [("data", .dict [("geo", .dict [("coordinates",
    .dict [("type", .str "Point"),
           ("coordinates", .list [.float (25/2), .float 45])])])])]

/-- A tweet whose geo object carries only the bounding box [10,40,15,50]. -/
def tweetBbox : PyVal :=
  .dict [("data", .dict [("geo", .dict [("bbox",
    .list [.int 10, .int 40, .int 15, .int 50])])])]

/-- A tweet whose geo object carries a bounding box of nulls: its midpoint
arithmetic raises `TypeError`, whose handler trips over the unbound `ex`. -/
def tweetBboxNone : PyVal :=
  .dict [("data", .dict [("geo", .dict [("bbox",
    .list [.none, .none, .none, .none])])])]

/-- A tweet with no geolocation at all. -/
def tweetNoGeo : PyVal :=
  .dict [("data", .dict [("text", .str "hello")])]

/-- A tweet whose created_at is a valid ISO string WITHOUT a timezone
designator: isoparse accepts it and yields a naive datetime. -/
def tweetNaiveTimestamp : PyVal :=
  .dict [("data", .dict [("created_at", .str "2021-06-01T12:00:00")])]

/-- A tweet whose created_at is a timezone-aware ISO string. -/
def tweetAwareTimestamp : PyVal :=
  .dict [("data", .dict [("created_at", .str "2021-06-01T12:00:00+00:00")])]

/-- A tweet whose created_at string is not a date: isoparse rejects it
with a plain `ValueError`, which the except clause does not catch. -/
def tweetBadTimestamp : PyVal :=
  .dict [("data", .dict [("created_at", .str "not a date")])]

/-- A 400 response carrying the weatherapi.com error body for
"no matching location" (domain error code 1006). -/
def respNoMatch : HttpResponse :=
  ⟨400,
   Option.some (.dict [("error", .dict [("code", .int 1006),
     ("message", .str "No matching location found.")])]),
   Option.some (.dict [("error", .dict [("code", .int 1006),
     ("message", .str "No matching location found.")])])⟩

/-- A 500 response (any non-suppressed non-success status). -/
def respServerError : HttpResponse :=
  ⟨500, Option.some (.dict []), Option.some (.dict [])⟩

/-- A 200 response whose temp_f is the JSON *integer* 72: parsed by
Python's json module to an `int`, not a `Decimal`. -/
def respIntTemp : HttpResponse :=
  ⟨200, Option.some (.dict [("current", .dict [("temp_f", .int 72)])]),
   Option.some (.dict [("current", .dict [("temp_f", .int 72)])])⟩

/-- A 200 response whose temp_f is the JSON number 72.5 (fractional, so
`parse_float=decimal.Decimal` yields a Decimal). -/
def respFloatTemp : HttpResponse :=
  ⟨200, Option.some (.dict [("current", .dict [("temp_f", .float (145/2))])]),
   Option.some (.dict [("current", .dict [("temp_f", .dec (145/2))])])⟩

/-- The sliding-window invariant tying the loop state to the inputs `pre`
processed so far: the buffer keeps the fixed capacity, `count` is the
number of inputs absorbed (capped at `W`), `current` is the circular write
cursor, `total` is the exact sum of the `count` most recent inputs, those
inputs are resident in the buffer at their circular slots, and the
never-written slots still hold their initial zero. -/
structure WindowInv (W : ℕ) (pre : List ℚ) (s : AvgState) : Prop where
  hlen : s.buffer.length = W
  hcount : s.count = min pre.length W
  hcur : s.current = pre.length % W
  htot : s.total = (pre.drop (pre.length - min pre.length W)).sum
  hbuf : ∀ k, pre.length - min pre.length W ≤ k → k < pre.length →
    s.buffer.getD (k % W) 0 = pre.getD k 0
  hzero : ∀ i, pre.length ≤ i → i < W → s.buffer.getD i 0 = 0

theorem getD_set_self (l : List ℚ) (n : ℕ) (a : ℚ) (h : n < l.length) :
    (l.set n a).getD n 0 = a := by
  simp [List.getD, List.getElem?_set, h]

theorem getD_set_ne (l : List ℚ) {n m : ℕ} (a : ℚ) (h : n ≠ m) :
    (l.set n a).getD m 0 = l.getD m 0 := by
  simp [List.getD, List.getElem?_set, h]

theorem mod_ne_of_between {k n W : ℕ} (h1 : k < n) (h2 : n < k + W) :
    k % W ≠ n % W := by
  intro h3
  have hd := (Nat.modEq_iff_dvd' h1.le).mp h3
  have := Nat.le_of_dvd (by omega) hd
  omega

theorem succ_mod_eq (n W : ℕ) : (n % W + 1) % W = (n + 1) % W := by
  conv_rhs => rw [Nat.add_mod]
  simp [Nat.mod_mod_of_dvd]

theorem windowInv_init (W : ℕ) : WindowInv W [] (avgInit W) := by
  refine ⟨by simp [avgInit], by simp [avgInit], by simp [avgInit],
    by simp [avgInit], by simp, ?_⟩
  intro i _ hi
  simp [avgInit, List.getD, List.getElem?_replicate, hi]

/-- The invariant is preserved by one update step, and the emitted value
is the exact mean of the most recent `min(count, capacity)` inputs. -/
theorem windowInv_step (W : ℕ) (hW : 1 ≤ W) (pre : List ℚ) (s : AvgState)
    (v : ℚ) (h : WindowInv W pre s) :
    WindowInv W (pre ++ [v]) (avgStep W s v).1 ∧
    (avgStep W s v).2 = windowMean W (pre ++ [v]) := by
  obtain ⟨hlen, hcount, hcur, htot, hbuf, hzero⟩ := h
  by_cases hfull : s.count = W
  · -- the window is already full: W ≤ pre.length
    have hWn : W ≤ pre.length := by omega
    have hminpre : min pre.length W = W := by omega
    have hmin1 : min (pre.length + 1) W = W := by omega
    rw [hminpre] at htot hbuf
    have hmodlt : pre.length % W < W := Nat.mod_lt _ (by omega)
    have hsub : (pre.length - W) % W = pre.length % W :=
      (Nat.mod_eq_sub_mod hWn).symm
    have hkey : s.buffer.getD s.current 0 = pre.getD (pre.length - W) 0 := by
      rw [hcur, ← hsub]
      exact hbuf _ le_rfl (by omega)
    have hdropcons : pre.drop (pre.length - W)
        = pre.getD (pre.length - W) 0 :: pre.drop (pre.length - W + 1) := by
      rw [List.getD_eq_getElem pre 0 (by omega)]
      exact List.drop_eq_getElem_cons (by omega)
    have htote : s.total - s.buffer.getD s.current 0 + v
        = (pre.drop (pre.length - W + 1)).sum + v := by
      rw [hkey, htot, hdropcons, List.sum_cons]
      ring
    have hstep : avgStep W s v =
        (⟨s.buffer.set s.current v, W, (s.current + 1) % W,
          s.total - s.buffer.getD s.current 0 + v⟩,
         (s.total - s.buffer.getD s.current 0 + v) / (W : ℚ)) := by
      simp [avgStep, hfull]
    have hdropgoal : ((pre ++ [v]).drop (pre.length + 1 - W)).sum
        = (pre.drop (pre.length - W + 1)).sum + v := by
      rw [List.drop_append_of_le_length (by omega), List.sum_append]
      have h9 : pre.length + 1 - W = pre.length - W + 1 := by omega
      rw [h9]
      simp
    rw [hstep]
    refine ⟨⟨by simp [hlen], ?_, ?_, ?_, ?_, ?_⟩, ?_⟩
    · simp only [List.length_append, List.length_singleton]
      omega
    · simp only [List.length_append, List.length_singleton]
      rw [hcur]
      exact succ_mod_eq _ _
    · simp only [List.length_append, List.length_singleton]
      rw [hmin1, hdropgoal]
      exact htote
    · intro k hk1 hk2
      simp only [List.length_append, List.length_singleton] at hk1 hk2
      rw [hmin1] at hk1
      rcases Nat.lt_succ_iff_lt_or_eq.mp hk2 with hk | hk
      · have hne : s.current ≠ k % W := by
          rw [hcur]
          exact (mod_ne_of_between hk (by omega)).symm
        rw [getD_set_ne _ _ hne, List.getD_append _ _ _ _ hk]
        exact hbuf k (by omega) hk
      · subst hk
        rw [hcur, getD_set_self _ _ _ (by rw [hlen]; exact hmodlt)]
        simp [List.getD]
    · intro i hi1 hi2
      simp only [List.length_append, List.length_singleton] at hi1
      omega
    · simp only [windowMean, List.length_append, List.length_singleton]
      rw [hmin1, hdropgoal, htote]
  · -- the window is still filling: pre.length < W
    have hnW : pre.length < W := by omega
    have hminpre : min pre.length W = pre.length := by omega
    have hmin1 : min (pre.length + 1) W = pre.length + 1 := by omega
    have hcount' : s.count = pre.length := by omega
    have hcurn : s.current = pre.length := by
      rw [hcur]
      exact Nat.mod_eq_of_lt hnW
    rw [hminpre, Nat.sub_self, List.drop_zero] at htot
    have hstep : avgStep W s v =
        (⟨s.buffer.set s.current v, s.count + 1, (s.current + 1) % W,
          s.total + v⟩,
         (s.total + v) / ((s.count + 1 : ℕ) : ℚ)) := by
      simp [avgStep, hfull]
    rw [hstep]
    refine ⟨⟨by simp [hlen], ?_, ?_, ?_, ?_, ?_⟩, ?_⟩
    · simp only [List.length_append, List.length_singleton]
      omega
    · simp only [List.length_append, List.length_singleton]
      rw [hcur]
      exact succ_mod_eq _ _
    · simp only [List.length_append, List.length_singleton]
      rw [hmin1, Nat.sub_self, List.drop_zero, List.sum_append, htot]
      simp
    · intro k hk1 hk2
      simp only [List.length_append, List.length_singleton] at hk1 hk2
      rcases Nat.lt_succ_iff_lt_or_eq.mp hk2 with hk | hk
      · have hkW : k % W = k := Nat.mod_eq_of_lt (by omega)
        have hne : s.current ≠ k % W := by
          rw [hcurn, hkW]
          omega
        rw [getD_set_ne _ _ hne, List.getD_append _ _ _ _ hk]
        rw [hminpre] at hbuf
        exact hbuf k (by omega) hk
      · subst hk
        have hkW : pre.length % W = pre.length := Nat.mod_eq_of_lt hnW
        rw [hkW, hcurn, getD_set_self _ _ _ (by rw [hlen]; exact hnW)]
        simp [List.getD]
    · intro i hi1 hi2
      simp only [List.length_append, List.length_singleton] at hi1
      have hne : s.current ≠ i := by
        rw [hcurn]
        omega
      rw [getD_set_ne _ _ hne]
      exact hzero i (by omega) hi2
    · simp only [windowMean, List.length_append, List.length_singleton]
      rw [hmin1, Nat.sub_self, List.drop_zero, List.sum_append, htot, hcount']
      simp

theorem avgRun_cons (W : ℕ) (s : AvgState) (v : ℚ) (vs : List ℚ) :
    avgRun W s (v :: vs) = ((avgRun W (avgStep W s v).1 vs).1,
      (avgStep W s v).2 :: (avgRun W (avgStep W s v).1 vs).2) := rfl

theorem avgRun_inv (W : ℕ) (hW : 1 ≤ W) :
    ∀ (xs pre : List ℚ) (s : AvgState), WindowInv W pre s →
      WindowInv W (pre ++ xs) (avgRun W s xs).1
  | [], pre, s, h => by simpa [avgRun] using h
  | v :: vs, pre, s, h => by
      rw [avgRun_cons]
      have h1 := (windowInv_step W hW pre s v h).1
      have h2 := avgRun_inv W hW vs (pre ++ [v]) _ h1
      simpa [List.append_assoc] using h2

theorem avgRun_length (W : ℕ) :
    ∀ (xs : List ℚ) (s : AvgState), ((avgRun W s xs).2).length = xs.length
  | [], _ => rfl
  | v :: vs, s => by
      rw [avgRun_cons]
      simp [avgRun_length W vs]

theorem avgRun_getD (W : ℕ) (hW : 1 ≤ W) :
    ∀ (xs pre : List ℚ) (s : AvgState) (j : ℕ), WindowInv W pre s →
      j < xs.length →
      ((avgRun W s xs).2).getD j 0 = windowMean W (pre ++ xs.take (j + 1))
  | [], _, _, j, _, hj => absurd hj (by simp)
  | v :: vs, pre, s, 0, h, _ => by
      rw [avgRun_cons]
      simp only [List.getD_cons_zero]
      rw [(windowInv_step W hW pre s v h).2]
      simp
  | v :: vs, pre, s, j + 1, h, hj => by
      rw [avgRun_cons]
      simp only [List.getD_cons_succ]
      have h1 := (windowInv_step W hW pre s v h).1
      have h2 := avgRun_getD W hW vs (pre ++ [v]) _ j h1 (by simpa using hj)
      rw [h2]
      congr 1
      simp [List.append_assoc]

/-- C1: for every input sequence, the Sliding Average Engine emits exactly
one average per input in arrival order, the n-th average being the exact
mean of the most recent `min(n, capacity)` inputs (divisor = count so far
while filling, capacity thereafter); for capacity 3 and inputs
[10, 20, 30, 40] the emitted averages are [10, 15, 20, 30]. -/
theorem claim_C1_sliding_average (W : ℕ) (hW : 1 ≤ W) (xs : List ℚ) :
    (compute_sliding_average W xs).length = xs.length ∧
    (∀ j, j < xs.length →
      (compute_sliding_average W xs).getD j 0 = windowMean W (xs.take (j + 1))) ∧
    compute_sliding_average 3 [10, 20, 30, 40] = [10, 15, 20, 30] := by
  refine ⟨?_, ?_, ?_⟩
  · simpa [compute_sliding_average] using avgRun_length W xs (avgInit W)
  · intro j hj
    have h := avgRun_getD W hW xs [] (avgInit W) j (windowInv_init W) hj
    simpa [compute_sliding_average] using h
  · norm_num [compute_sliding_average, avgRun, avgStep, avgInit]

theorem claim_C1_sliding_average_witness :
    compute_sliding_average 3 [10, 20, 30, 40] = [10, 15, 20, 30] :=
  (claim_C1_sliding_average 3 (by norm_num) [10, 20, 30, 40]).2.2

/-- C5: after each processed input, the running sum `total` equals the
exact sum of the `count` most recently written values resident in the
buffer (each residing at its circular slot), and `count` never exceeds the
capacity. -/
theorem claim_C5_window_invariant (W : ℕ) (hW : 1 ≤ W) (xs : List ℚ) :
    (avgRun W (avgInit W) xs).1.count ≤ W ∧
    (avgRun W (avgInit W) xs).1.total =
      (xs.drop (xs.length - (avgRun W (avgInit W) xs).1.count)).sum ∧
    (∀ k, xs.length - (avgRun W (avgInit W) xs).1.count ≤ k → k < xs.length →
      (avgRun W (avgInit W) xs).1.buffer.getD (k % W) 0 = xs.getD k 0) := by
  have h := avgRun_inv W hW xs [] (avgInit W) (windowInv_init W)
  simp only [List.nil_append] at h
  obtain ⟨hlen, hcount, hcur, htot, hbuf, hzero⟩ := h
  refine ⟨by omega, ?_, ?_⟩
  · rw [hcount]
    exact htot
  · intro k hk1 hk2
    rw [hcount] at hk1
    exact hbuf k hk1 hk2

theorem claim_C5_window_invariant_witness :
    (avgRun 3 (avgInit 3) [10, 20, 30, 40]).1.count ≤ 3 ∧
    (avgRun 3 (avgInit 3) [10, 20, 30, 40]).1.total =
      (([10, 20, 30, 40] : List ℚ).drop
        (([10, 20, 30, 40] : List ℚ).length -
          (avgRun 3 (avgInit 3) [10, 20, 30, 40]).1.count)).sum ∧
    (∀ k, ([10, 20, 30, 40] : List ℚ).length -
        (avgRun 3 (avgInit 3) [10, 20, 30, 40]).1.count ≤ k →
      k < ([10, 20, 30, 40] : List ℚ).length →
      (avgRun 3 (avgInit 3) [10, 20, 30, 40]).1.buffer.getD (k % 3) 0 =
        ([10, 20, 30, 40] : List ℚ).getD k 0) :=
  claim_C5_window_invariant 3 (by norm_num) [10, 20, 30, 40]

/-- C2: the sequence of records delivered to the raw-file channel is
identical, element for element and in order, to the sequence delivered to
the averaging channel; the full send trace consists of exactly one
file-send immediately followed by one average-send per resolved record,
in arrival order — so each resolved record reaches both consumers exactly
once and the two consumers never diverge. -/
theorem claim_C2_fanout_atomicity {τ ε : Type}
    (lookup : Coordinates → Except ε (Option ℚ))
    (records : List (τ × Coordinates)) :
    fileSends (get_temperature lookup records).1 =
      avgSends (get_temperature lookup records).1 ∧
    (get_temperature lookup records).1 =
      (fileSends (get_temperature lookup records).1).flatMap
        (fun d => [SendEvent.toFile d, SendEvent.toAvg d]) := by
  induction records with
  | nil => exact ⟨rfl, rfl⟩
  | cons r rest ih =>
      obtain ⟨t, c⟩ := r
      obtain ⟨ih1, ih2⟩ := ih
      cases hlk : lookup c with
      | error e =>
          simp only [get_temperature, hlk]
          exact ⟨rfl, rfl⟩
      | ok o =>
          cases o with
          | none =>
              simp only [get_temperature, hlk]
              exact ⟨ih1, ih2⟩
          | some temp =>
              constructor
              · simp only [get_temperature, hlk, fileSends, avgSends,
                  List.filterMap_cons] at ih1 ⊢
                rw [ih1]
              · simp only [get_temperature, hlk, fileSends,
                  List.filterMap_cons, List.flatMap_cons] at ih2 ⊢
                simp [← ih2]

/-- C9: the Record Sink starts from an empty (truncated) file, and its
final content is exactly the concatenation, in arrival order, of one
`<timestamp>,<decimal value>\n` line per received record — no header row,
and each arrival appends exactly one line. -/
theorem claim_C9_record_sink (records : List (PyDateTime × ℚ)) :
    write_data ([] : List (PyDateTime × ℚ)) = "" ∧
    write_data records = String.join (records.map sinkLine) ∧
    (∀ r, write_data (records ++ [r]) = write_data records ++ sinkLine r) := by
  have key : ∀ (rs : List (PyDateTime × ℚ)) (acc : String),
      rs.foldl (fun a r => a ++ sinkLine r) acc
        = acc ++ String.join (rs.map sinkLine) := by
    intro rs
    induction rs with
    | nil =>
        intro acc
        simp [String.join]
    | cons r rest ih =>
        intro acc
        have hjoin : String.join (sinkLine r :: rest.map sinkLine)
            = sinkLine r ++ String.join (rest.map sinkLine) := by
          simp [String.join_eq]
          rfl
        simp only [List.foldl_cons, List.map_cons, ih, hjoin]
        rw [String.append_assoc]
  refine ⟨rfl, ?_, ?_⟩
  · simpa [write_data] using key records ""
  · intro r
    simp only [write_data, List.foldl_append, List.foldl_cons, List.foldl_nil]

/-- C3: the decorations request exactly the schedule the claim describes
(for attempts 1..5 the wait function gives 1, 2, 4, 8, then capped 10, and
both decorations carry the same parameters), but the program has no such
retry behaviour.  The stream side: `TwitterClient.stream` is an async
generator function, so tenacity's synchronous `Retrying` wraps only the
construction of the generator; a transport failure during streaming
propagates at once — no waits, a single machinery "attempt", fatal on the
first failure.  The weather side: the asynchronous controller does govern
the coroutine, but its first backoff sleep is `asyncio.sleep`, which
raises `RuntimeError` under trio — fatal after exactly one attempt, with
no wait completed; only a first-attempt success returns normally. -/
theorem claim_C3_retry_policy {α : Type} (e : PyErr) (outcome : ℕ → Option α) :
    (streamRetryPolicy = weatherRetryPolicy ∧
     (List.range 5).map
       (fun i => wait_exponential streamRetryPolicy.waitMin
         streamRetryPolicy.waitMax (i + 1)) = [1, 2, 4, 8, 10]) ∧
    stream_decorated_run (Except.error e : Except PyErr α)
      = ([], 1, Except.error e) ∧
    (outcome 1 = Option.none →
      weather_decorated_run outcome = (1, Except.error PyErr.runtimeError)) ∧
    (∀ a, outcome 1 = Option.some a →
      weather_decorated_run outcome = (1, Except.ok a)) := by
  refine ⟨⟨rfl, ?_⟩, rfl, ?_, ?_⟩
  · norm_num [streamRetryPolicy, wait_exponential, List.range_succ]
  · intro h1
    simp [weather_decorated_run, h1]
  · intro a h1
    simp [weather_decorated_run, h1]

theorem claim_C3_retry_policy_witness :
    stream_decorated_run (Except.error PyErr.transportError : Except PyErr ℚ)
      = ([], 1, Except.error PyErr.transportError) ∧
    weather_decorated_run (fun _ => (Option.none : Option ℚ))
      = (1, Except.error PyErr.runtimeError) ∧
    weather_decorated_run (fun _ => Option.some (72 : ℚ))
      = (1, Except.ok 72) :=
  ⟨(claim_C3_retry_policy PyErr.transportError
      (fun _ => (Option.none : Option ℚ))).2.1,
   (claim_C3_retry_policy PyErr.transportError
      (fun _ => (Option.none : Option ℚ))).2.2.1 rfl,
   (claim_C3_retry_policy PyErr.transportError
      (fun _ => Option.some (72 : ℚ))).2.2.2 72 rfl⟩

theorem ok_bind {ε α β : Type} (a : α) (f : α → Except ε β) :
    (Except.ok a >>= f : Except ε β) = f a := rfl

theorem error_bind {ε α β : Type} (e : ε) (f : α → Except ε β) :
    (Except.error e >>= f : Except ε β) = Except.error e := rfl

theorem pure_eq_ok {ε α : Type} (a : α) : (pure a : Except ε α) = Except.ok a := rfl

theorem throw_eq_error {ε α : Type} (e : ε) :
    (throw e : Except ε α) = Except.error e := rfl

/-- C6 counterexample: a created_at string with no timezone designator is
NOT a timezone-aware date-time, yet extraction succeeds on it (isoparse
returns a naive datetime), so "succeeds only when ... parses as a
timezone-aware date-time" fails on this record. -/
theorem claim_C6_counterexample :
    get_timestamp tweetNaiveTimestamp =
      .ok (Option.some ⟨2021, 6, 1, 12, 0, 0, 0, Option.none⟩) ∧
    (⟨2021, 6, 1, 12, 0, 0, 0, Option.none⟩ : PyDateTime).tzOffsetMinutes
      = Option.none :=
  ⟨rfl, rfl⟩

/-- C6 (amended): an absent or non-string creation-timestamp field is a
soft skip (`None`); a string field that isoparse accepts — timezone-aware
OR naive — yields its timestamp; a string field isoparse rejects raises a
plain `ValueError` that the `except` clause (`ParserError`,
`UnknownTimezoneWarning`, `OverflowError`) does not catch, so the record
is NOT soft-skipped: the error propagates and the stage dies fatally.  An
exception from the dictionary access propagates unchanged. -/
theorem claim_C6_timestamp_extraction (tweet : PyVal) :
    (∀ s ts, createdAtField tweet = .ok (.str s) →
      isoparseM s = Option.some ts →
      get_timestamp tweet = .ok (Option.some ts)) ∧
    (∀ s, createdAtField tweet = .ok (.str s) →
      isoparseM s = Option.none →
      get_timestamp tweet = .error PyErr.valueError) ∧
    (∀ v, createdAtField tweet = .ok v → (∀ s, v ≠ .str s) →
      get_timestamp tweet = .ok Option.none) ∧
    (∀ e, createdAtField tweet = .error e → get_timestamp tweet = .error e) := by
  refine ⟨?_, ?_, ?_, ?_⟩
  · intro s ts h hp
    simp [get_timestamp, h, hp, ok_bind, pure_eq_ok]
  · intro s h hp
    simp [get_timestamp, h, hp, ok_bind, throw_eq_error]
  · intro v h hv
    cases v <;> first
      | exact absurd rfl (hv _)
      | simp [get_timestamp, h, ok_bind, pure_eq_ok]
  · intro e h
    simp [get_timestamp, h, error_bind]

theorem claim_C6_timestamp_extraction_witness :
    get_timestamp tweetAwareTimestamp =
      .ok (Option.some ⟨2021, 6, 1, 12, 0, 0, 0, Option.some 0⟩) ∧
    get_timestamp tweetBadTimestamp = .error PyErr.valueError :=
  ⟨(claim_C6_timestamp_extraction tweetAwareTimestamp).1
      "2021-06-01T12:00:00+00:00" ⟨2021, 6, 1, 12, 0, 0, 0, Option.some 0⟩
      rfl rfl,
   (claim_C6_timestamp_extraction tweetBadTimestamp).2.1
      "not a date" rfl rfl⟩

/-- C8: a point coordinate list [12.5, 45.0] yields
Coordinates(12.5, 45.0); a bounding box [10,40,15,50] yields the midpoint
Coordinates(12.5, 45.0); a record with no geolocation yields a soft skip;
BUT a record whose bounding box is present and unresolvable (here a list
of nulls, whose midpoint arithmetic raises `TypeError`) makes the
`except TypeError` handler itself raise `NameError` — its logging call
references the unbound name `ex` — so the failure is fatal instead of the
soft skip the claim describes. -/
theorem claim_C8_coordinate_extraction :
    get_coordinates tweetPoint = .ok (Option.some ⟨25/2, 45⟩) ∧
    get_coordinates tweetBbox = .ok (Option.some ⟨25/2, 45⟩) ∧
    get_coordinates tweetNoGeo = .ok Option.none ∧
    get_coordinates tweetBboxNone = .error PyErr.nameError := by
  refine ⟨rfl, ?_, rfl, rfl⟩
  have h : get_coordinates tweetBbox
      = .ok (Option.some ⟨((25:ℤ):ℚ)/2, ((90:ℤ):ℚ)/2⟩) := rfl
  rw [h]
  norm_num

/-- Any exception escaping `should_ignore_error` is the `AttributeError`
raised by calling `.get` on a non-dict (only `JSONDecodeError` is caught
there) — in particular never a retryable transport error. -/
theorem should_ignore_error_error (r : HttpResponse) (e : PyErr)
    (h : should_ignore_error r = .error e) : e = PyErr.attributeError := by
  obtain ⟨st, raw, dec⟩ := r
  by_cases h400 : st = 400
  · subst h400
    cases raw with
    | none => simp [should_ignore_error] at h
    | some j =>
        rcases j with _ | b | z | q | q2 | s | xs | m
        · simp [should_ignore_error, pyGetD, error_bind] at h; exact h.symm
        · simp [should_ignore_error, pyGetD, error_bind] at h; exact h.symm
        · simp [should_ignore_error, pyGetD, error_bind] at h; exact h.symm
        · simp [should_ignore_error, pyGetD, error_bind] at h; exact h.symm
        · simp [should_ignore_error, pyGetD, error_bind] at h; exact h.symm
        · simp [should_ignore_error, pyGetD, error_bind] at h; exact h.symm
        · simp [should_ignore_error, pyGetD, error_bind] at h; exact h.symm
        · have hrw : should_ignore_error ⟨400, Option.some (.dict m), dec⟩ =
              (do
                let error ← pyGetD (.dict m) "error" (.dict [])
                let errorCode ← if pyTruthy error then pyGet error "code"
                  else pure PyVal.none
                return (pyEqInt errorCode NO_MATCHING_LOCATION) :
               Except PyErr Bool) := rfl
          rw [hrw] at h
          simp only [pyGetD, ok_bind] at h
          by_cases ht : pyTruthy ((pyLookup m "error").getD (.dict []))
          · rw [if_pos ht] at h
            rcases hve : (pyLookup m "error").getD (.dict [])
              with _ | b | z | q | q2 | s | xs | em <;>
              rw [hve] at h <;>
              simp [pyGet, pyGetD, ok_bind, error_bind, pure_eq_ok] at h <;>
              exact h.symm
          · rw [if_neg ht] at h
            simp [ok_bind, pure_eq_ok] at h
  · simp [should_ignore_error, h400] at h

/-- C4: a 400 response whose error body carries domain code 1006
("no matching location") makes the lookup return an empty result — a soft
skip — while any other non-success response makes it raise an error that
is not a retryable transport error (so it is not retried and propagates
as fatal). -/
theorem claim_C4_no_match_suppression (r : HttpResponse)
    (m em : List (String × PyVal)) :
    (r.status = 400 → r.rawJson = Option.some (.dict m) →
      pyLookup m "error" = Option.some (.dict em) →
      pyLookup em "code" = Option.some (.int 1006) →
      get_current_temperature_for_coordinates r = .ok Option.none) ∧
    (isSuccessStatus r.status = false → should_ignore_error r ≠ .ok true →
      ∃ e, get_current_temperature_for_coordinates r = .error e ∧
        e ≠ PyErr.transportError) := by
  constructor
  · intro h400 hraw herr hcode
    have hem : em.isEmpty = false := by
      cases em with
      | nil => simp [pyLookup] at hcode
      | cons a l => rfl
    obtain ⟨st, raw, dec⟩ := r
    simp only at h400 hraw
    subst h400
    subst hraw
    have hig : should_ignore_error ⟨400, Option.some (.dict m), dec⟩
        = .ok true := by
      have hrw : should_ignore_error ⟨400, Option.some (.dict m), dec⟩ =
          (do
            let error ← pyGetD (.dict m) "error" (.dict [])
            let errorCode ← if pyTruthy error then pyGet error "code"
              else pure PyVal.none
            return (pyEqInt errorCode NO_MATCHING_LOCATION) :
           Except PyErr Bool) := rfl
      rw [hrw]
      simp [pyGetD, pyGet, ok_bind, pure_eq_ok, herr, hcode, pyTruthy, hem,
        pyEqInt, NO_MATCHING_LOCATION]
    simp [get_current_temperature_for_coordinates, hig, ok_bind, pure_eq_ok]
  · intro hsucc hig
    cases hie : should_ignore_error r with
    | error e =>
        have he := should_ignore_error_error r e hie
        refine ⟨e, ?_, by rw [he]; decide⟩
        simp [get_current_temperature_for_coordinates, hie, error_bind]
    | ok b =>
        cases b with
        | true => exact absurd hie hig
        | false =>
            refine ⟨.httpStatusError r.status, ?_,
              fun hcon => PyErr.noConfusion hcon⟩
            simp [get_current_temperature_for_coordinates, hie, ok_bind,
              hsucc, throw_eq_error]

theorem claim_C4_no_match_suppression_witness :
    get_current_temperature_for_coordinates respNoMatch = .ok Option.none ∧
    (∃ e, get_current_temperature_for_coordinates respServerError = .error e ∧
      e ≠ PyErr.transportError) :=
  ⟨(claim_C4_no_match_suppression respNoMatch
      [("error", .dict [("code", .int 1006),
        ("message", .str "No matching location found.")])]
      [("code", .int 1006),
        ("message", .str "No matching location found.")]).1 rfl rfl rfl rfl,
   (claim_C4_no_match_suppression respServerError [] []).2 rfl
     (fun hcon => Bool.noConfusion (Except.ok.inj hcon))⟩

/-- On a success-status response with an object body, the lookup's result
is fully determined by the `current.temp_f` member. -/
theorem get_current_on_success (r : HttpResponse) (w : List (String × PyVal))
    (hs : isSuccessStatus r.status = true)
    (hw : r.decJson = Option.some (.dict w)) :
    get_current_temperature_for_coordinates r =
      (do
        let current ← pyGetD (.dict w) "current" (.dict [])
        let temperature ← pyGet current "temp_f"
        match temperature with
        | .dec q => return (Option.some q)
        | .str s =>
            match readDecimalString s with
            | Option.some q => return (Option.some q)
            | Option.none => return Option.none
        | _ => return Option.none : Except PyErr (Option ℚ)) := by
  have h400 : r.status ≠ 400 := by
    simp [isSuccessStatus] at hs
    omega
  have hig : should_ignore_error r = .ok false := by
    simp [should_ignore_error, h400]
  simp [get_current_temperature_for_coordinates, hig, ok_bind, hs, hw]

/-- C7 counterexample: a 200 response carrying the numeric temp_f value 72
written as a JSON integer: `parse_float=decimal.Decimal` leaves it an
`int`, the `isinstance(..., decimal.Decimal)` and `str` tests both fail,
and the code soft-skips (returns `None`) — though the claim promises the
parsed decimal for every numeric field. -/
theorem claim_C7_counterexample :
    pyLookup [("temp_f", PyVal.int 72)] "temp_f" = Option.some (.int 72) ∧
    pyIsNum (.int 72) = true ∧
    get_current_temperature_for_coordinates respIntTemp = .ok Option.none :=
  ⟨rfl, rfl, rfl⟩

/-- C7 (amended): on a success response, the lookup returns the parsed
decimal exactly when the temp_f field is a fractional JSON number (parsed
to `Decimal`) or a string convertible to decimal; a missing field, an
unconvertible string, or an integer-written number (left an `int` by the
json module) is a soft skip returning `None`, not fatal. -/
theorem claim_C7_temperature_parsing (r : HttpResponse)
    (w cur : List (String × PyVal))
    (hs : isSuccessStatus r.status = true)
    (hw : r.decJson = Option.some (.dict w))
    (hcur : pyLookup w "current" = Option.some (.dict cur)) :
    (∀ q, pyLookup cur "temp_f" = Option.some (.dec q) →
      get_current_temperature_for_coordinates r = .ok (Option.some q)) ∧
    (∀ s q, pyLookup cur "temp_f" = Option.some (.str s) →
      readDecimalString s = Option.some q →
      get_current_temperature_for_coordinates r = .ok (Option.some q)) ∧
    (∀ s, pyLookup cur "temp_f" = Option.some (.str s) →
      readDecimalString s = Option.none →
      get_current_temperature_for_coordinates r = .ok Option.none) ∧
    (pyLookup cur "temp_f" = Option.none →
      get_current_temperature_for_coordinates r = .ok Option.none) ∧
    (∀ z, pyLookup cur "temp_f" = Option.some (.int z) →
      get_current_temperature_for_coordinates r = .ok Option.none) := by
  have key := get_current_on_success r w hs hw
  refine ⟨?_, ?_, ?_, ?_, ?_⟩
  · intro q htf
    rw [key]
    simp [pyGetD, pyGet, ok_bind, pure_eq_ok, hcur, htf]
  · intro s q htf hrd
    rw [key]
    simp [pyGetD, pyGet, ok_bind, pure_eq_ok, hcur, htf, hrd]
  · intro s htf hrd
    rw [key]
    simp [pyGetD, pyGet, ok_bind, pure_eq_ok, hcur, htf, hrd]
  · intro htf
    rw [key]
    simp [pyGetD, pyGet, ok_bind, pure_eq_ok, hcur, htf]
  · intro z htf
    rw [key]
    simp [pyGetD, pyGet, ok_bind, pure_eq_ok, hcur, htf]

theorem claim_C7_temperature_parsing_witness :
    get_current_temperature_for_coordinates respFloatTemp
      = .ok (Option.some (145/2)) :=
  (claim_C7_temperature_parsing respFloatTemp
    [("current", .dict [("temp_f", .dec (145/2))])] [("temp_f", .dec (145/2))]
    rfl rfl rfl).1 (145/2) rfl

/-- Midpoint arithmetic on two decoded JSON numbers succeeds with the
exact half-sum. -/
theorem pyAdd_div2_num (a b : PyVal) (ha : pyIsNum a = true)
    (hb : pyIsNum b = true) :
    (pyAdd a b).bind pyDivFloat2 = .ok ((pyNumVal a + pyNumVal b) / 2) := by
  cases a <;> cases b <;>
    simp_all [pyIsNum, pyAdd, pyDivFloat2, pyNumVal, Except.bind]

/-- C10: when the explicit point coordinate list is present but unusable
(wrong length, or a leading entry that does not convert with `float`),
extraction falls back to the same geo object's bounding box; a box of 4
or 6 JSON numbers yields the midpoint of its first four elements only
(longitude = (e0+e2)/2, latitude = (e1+e3)/2, elements 4 and 5 of a
6-element box ignored). -/
theorem claim_C10_bbox_fallback (cs bs : List PyVal)
    (hpoint : ¬ (cs.length = 2 ∨ cs.length = 3) ∨
      exceptIsOk (pyFloat (cs.getD 0 .none)) = false ∨
      exceptIsOk (pyFloat (cs.getD 1 .none)) = false)
    (hblen : bs.length = 4 ∨ bs.length = 6)
    (hnum : ∀ x ∈ bs, pyIsNum x = true) :
    extract_coordinates_from_geo
        (.dict [("coordinates", .list cs), ("bbox", .list bs)]) =
      .ok (Option.some
        ⟨(pyNumVal (bs.getD 0 .none) + pyNumVal (bs.getD 2 .none)) / 2,
         (pyNumVal (bs.getD 1 .none) + pyNumVal (bs.getD 3 .none)) / 2⟩) := by
  have hpt : pointFromCoordinates (.list cs) = Option.none := by
    by_cases hl : cs.length = 2 ∨ cs.length = 3
    · rcases hpoint with hbad | hf | hf
      · exact absurd hl hbad
      · cases hpf : pyFloat (cs.getD 0 .none) with
        | ok q => rw [hpf] at hf; simp [exceptIsOk] at hf
        | error e =>
            cases hpf2 : pyFloat (cs.getD 1 .none) <;>
              simp only [List.getD, List.get?_eq_getElem?] at hpf hpf2 <;>
              simp [pointFromCoordinates, if_pos hl, hpf, hpf2, List.getD]
      · cases hpf : pyFloat (cs.getD 1 .none) with
        | ok q => rw [hpf] at hf; simp [exceptIsOk] at hf
        | error e =>
            cases hpf2 : pyFloat (cs.getD 0 .none) <;>
              simp only [List.getD, List.get?_eq_getElem?] at hpf hpf2 <;>
              simp [pointFromCoordinates, if_pos hl, hpf, hpf2, List.getD]
    · simp [pointFromCoordinates, hl]
  have hlen4 : 4 ≤ bs.length := by rcases hblen with h | h <;> omega
  have h0 : bs.getD 0 .none ∈ bs := by
    rw [List.getD_eq_getElem _ _ (by omega)]
    exact List.getElem_mem _
  have h1 : bs.getD 1 .none ∈ bs := by
    rw [List.getD_eq_getElem _ _ (by omega)]
    exact List.getElem_mem _
  have h2 : bs.getD 2 .none ∈ bs := by
    rw [List.getD_eq_getElem _ _ (by omega)]
    exact List.getElem_mem _
  have h3 : bs.getD 3 .none ∈ bs := by
    rw [List.getD_eq_getElem _ _ (by omega)]
    exact List.getElem_mem _
  have hbb : bboxResult (.list bs) =
      .ok (Option.some
        ⟨(pyNumVal (bs.getD 0 .none) + pyNumVal (bs.getD 2 .none)) / 2,
         (pyNumVal (bs.getD 1 .none) + pyNumVal (bs.getD 3 .none)) / 2⟩) := by
    simp only [bboxResult, if_pos hblen]
    rw [pyAdd_div2_num _ _ (hnum _ h0) (hnum _ h2),
      pyAdd_div2_num _ _ (hnum _ h1) (hnum _ h3)]
  have hg1 : pyGet (.dict [("coordinates", .list cs), ("bbox", .list bs)])
      "coordinates" = .ok (.list cs) := rfl
  have hg2 : pyGet (.dict [("coordinates", .list cs), ("bbox", .list bs)])
      "bbox" = .ok (.list bs) := rfl
  simp [extract_coordinates_from_geo, pyTruthy, hg1, hg2, ok_bind, hpt, hbb]

theorem claim_C10_bbox_fallback_witness :
    extract_coordinates_from_geo
        (.dict [("coordinates", .list [.str "x", .float 45]),
                ("bbox", .list [.int 10, .int 40, .int 15, .int 50,
                                .int 99, .int 98])]) =
      .ok (Option.some ⟨25/2, 45⟩) := by
  have h := claim_C10_bbox_fallback [.str "x", .float 45]
    [.int 10, .int 40, .int 15, .int 50, .int 99, .int 98]
    (Or.inr (Or.inl rfl)) (Or.inr rfl) (by decide)
  rw [h]
  norm_num [pyNumVal, List.getD]

end TweetTemp
